import Mathlib

/-!
Verification development for the nutriai-api HTTP handlers.

The embedding models the four request handlers of the repository:
the profile store (GET/POST on the in-memory profile map), the goal
calculator (a pure computation over anthropometric inputs), and the two
vision-analysis handlers.  JavaScript numbers are modelled as exact
rationals (ℚ); `Math.round` is floor of `x + 1/2`, matching its
round-half-up behaviour on both signs.  Optional JSON fields are
`Option` values, and JavaScript truthiness tests (`!x`) on them are the
`falsy` predicates below (absent, zero or the empty string are falsy).
The wall clock enters only through the current year, which is passed to
each handler as an explicit argument.
-/

namespace NutriAI

/-- JavaScript `Math.round`: round half up on both signs. -/
def jsRound (q : ℚ) : ℤ := ⌊q + 1/2⌋

/-- JavaScript `Math.round(q * 10) / 10`: round to one decimal place. -/
def round1 (q : ℚ) : ℚ := (jsRound (q * 10) : ℚ) / 10

/-- JavaScript `Math.round(q * 100) / 100`: round to two decimal places. -/
def round2 (q : ℚ) : ℚ := (jsRound (q * 100) : ℚ) / 100

/-- Truthiness of an optional number: `!x` is true in JavaScript exactly
when the field is absent or zero (NaN never arises in this model). -/
abbrev falsyN (o : Option ℚ) : Prop := o.getD 0 = 0

/-- Truthiness of an optional string: `!x` is true exactly when the field
is absent or the empty string. -/
abbrev falsyS (o : Option String) : Prop := o.getD "" = ""

/-- JavaScript `String.prototype.includes`. -/
def strIncludes (s pat : String) : Bool := decide (pat.data <:+: s.data)

/-- JavaScript `String.prototype.trim`: strip whitespace from both ends. -/
def jsTrim (s : String) : String :=
  ⟨((s.data.dropWhile Char.isWhitespace).reverse.dropWhile Char.isWhitespace).reverse⟩

/-- JavaScript `Number.prototype.toFixed(2)` for a non-negative rational
(the handlers only apply it to `Math.abs(...)`): the nearest multiple of
1/100, ties away from zero, printed with exactly two decimals. -/
def toFixed2 (q : ℚ) : String :=
  let n : ℕ := (jsRound (q * 100)).toNat
  toString (n / 100) ++ "." ++ (if n % 100 < 10 then "0" else "") ++ toString (n % 100)

namespace Goals

/-- Activity multipliers used for the TDEE, keyed by `activity_level`
(`ACTIVITY_MULTIPLIERS` in the goals route); an unrecognized level is
absent from the table. -/
def ACTIVITY_MULTIPLIERS : String → Option ℚ
  | "sedentario" => some 1.2
  | "levemente_ativo" => some 1.375
  | "moderadamente_ativo" => some 1.55
  | "muito_ativo" => some 1.725
  | "super_ativo" => some 1.9
  | _ => none

/-- One macro preset: percentages for protein, carbs and fat. -/
structure MacroPreset where
  protein : ℚ
  carbs : ℚ
  fat : ℚ
deriving DecidableEq, Inhabited

/-- The macro presets table (`MACRO_PRESETS` in the goals route). -/
def MACRO_PRESETS : String → Option MacroPreset
  | "equilibrado" => some ⟨30, 50, 20⟩
  | "perda_gordura" => some ⟨35, 40, 25⟩
  | "ganho_massa" => some ⟨35, 45, 20⟩
  | "baixo_carb" => some ⟨30, 30, 40⟩
  | "cetogenico" => some ⟨25, 5, 70⟩
  | _ => none

/-- The balanced preset, the fallback for an unrecognized `macro_focus`
(`MACRO_PRESETS.equilibrado`). -/
def equilibrado : MacroPreset := ⟨30, 50, 20⟩

/-- BMI classification (`getBMICategory` in the goals route). -/
def getBMICategory (bmi : ℚ) : String :=
  if bmi < 18.5 then "Abaixo do peso"
  else if bmi < 25 then "Peso normal"
  else if bmi < 30 then "Sobrepeso"
  else "Obesidade"

/-- Warning for a weekly change faster than 1 kg/week. -/
def tooFastWarning (absKg : ℚ) : String :=
  "Taxa de mudança de peso muito rápida (" ++
    (toFixed2 absKg ++ " kg/semana). Recomendado: máximo 1 kg/semana para saúde.")

/-- Warning for a weekly change slower than 0.25 kg/week. -/
def tooSlowWarning (absKg : ℚ) : String :=
  "Taxa de mudança de peso muito lenta (" ++
    (toFixed2 absKg ++ " kg/semana). Considere um período mais curto para resultados mais visíveis.")

/-- Warning naming the safety floor applied to the daily calories. -/
def minCalorieWarning (m : ℤ) : String :=
  "Calorias ajustadas para o mínimo seguro (" ++ (toString m ++ " kcal/dia)")

/-- Warning naming the ceiling applied to the daily calories. -/
def maxCalorieWarning (m : ℤ) : String :=
  "Calorias ajustadas para o máximo recomendado (" ++ (toString m ++ " kcal/dia)")

/-- Warning for a goal BMI below the healthy band. -/
def bmiGoalLowWarning : String :=
  "IMC meta está abaixo do peso saudável (< 18.5). Consulte um nutricionista."

/-- Warning for a goal BMI above the healthy band. -/
def bmiGoalHighWarning : String :=
  "IMC meta está acima do peso saudável (> 30). Considere uma meta intermediária."

/-- The request body of the goal-calculation POST, as destructured by the
handler: every field may be absent. -/
structure GoalInput where
  gender : Option String
  birth_year : Option ℚ
  weight_kg : Option ℚ
  height_cm : Option ℚ
  activity_level : Option String
  goal_type : Option String
  goal_weight_kg : Option ℚ
  goal_weeks : Option ℚ
  macro_focus : Option String
deriving DecidableEq

/-- The local values the goals handler computes after validation, one
field per `const`/`let` of the source body. -/
structure GoalLocals where
  age : ℚ
  height_m : ℚ
  bmi_current : ℚ
  bmi_goal : ℚ
  tmb : ℚ
  multiplier : ℚ
  tdee : ℚ
  weight_change_kg : ℚ
  kg_per_week : ℚ
  calorie_adjustment_per_day : ℚ
  min_calories : ℤ
  max_calories : ℤ
  daily_calories : ℤ
  calorie_warning : String
  macros_percent : MacroPreset
  protein_calories : ℚ
  carbs_calories : ℚ
  fat_calories : ℚ
  protein_grams : ℚ
  carbs_grams : ℚ
  fat_grams : ℚ
  warnings : List String
deriving DecidableEq

/-- The computation the goals handler performs once validation has
passed, mirroring the source statement by statement: BMI for the current
and goal weight, Mifflin-St Jeor BMR keyed on gender, TDEE from the
activity multiplier, the weekly change and its daily calorie adjustment
(7700 kcal per kg over 7 days), the rounded and clamped daily calories
with the clamp warning, the macro split from the preset (falling back to
the balanced one), and the advisory warnings in push order. -/
def goalLocals (currentYear : ℤ) (gender : String) (birth_year weight_kg height_cm : ℚ)
    (multiplier : ℚ) (goal_weight_kg goal_weeks : ℚ) (macro_focus : String) : GoalLocals :=
  let age : ℚ := (currentYear : ℚ) - birth_year
  let height_m := height_cm / 100
  let bmi_current := weight_kg / (height_m * height_m)
  let bmi_goal := goal_weight_kg / (height_m * height_m)
  let tmb := if gender = "masculino"
    then (10 * weight_kg) + (6.25 * height_cm) - (5 * age) + 5
    else (10 * weight_kg) + (6.25 * height_cm) - (5 * age) - 161
  let tdee := tmb * multiplier
  let weight_change_kg := goal_weight_kg - weight_kg
  let kg_per_week := weight_change_kg / goal_weeks
  let calorie_adjustment_per_day := (kg_per_week * 7700) / 7
  let dc0 := jsRound (tdee + calorie_adjustment_per_day)
  let min_calories : ℤ := if gender = "masculino" then 1500 else 1200
  let max_calories : ℤ := 5000
  let calorie_warning :=
    if dc0 < min_calories then minCalorieWarning min_calories
    else if dc0 > max_calories then maxCalorieWarning max_calories
    else ""
  let daily_calories :=
    if dc0 < min_calories then min_calories
    else if dc0 > max_calories then max_calories
    else dc0
  let macros_percent := (MACRO_PRESETS macro_focus).getD equilibrado
  let protein_calories := (daily_calories : ℚ) * (macros_percent.protein / 100)
  let carbs_calories := (daily_calories : ℚ) * (macros_percent.carbs / 100)
  let fat_calories := (daily_calories : ℚ) * (macros_percent.fat / 100)
  let protein_grams := protein_calories / 4
  let carbs_grams := carbs_calories / 4
  let fat_grams := fat_calories / 9
  let warnings : List String :=
    (if |kg_per_week| > 1 then [tooFastWarning |kg_per_week|]
      else if |kg_per_week| < 0.25 then [tooSlowWarning |kg_per_week|]
      else []) ++
    (if calorie_warning = "" then [] else [calorie_warning]) ++
    (if bmi_goal < 18.5 then [bmiGoalLowWarning]
      else if bmi_goal > 30 then [bmiGoalHighWarning]
      else [])
  { age, height_m, bmi_current, bmi_goal, tmb, multiplier, tdee, weight_change_kg,
    kg_per_week, calorie_adjustment_per_day, min_calories, max_calories,
    daily_calories, calorie_warning, macros_percent, protein_calories,
    carbs_calories, fat_calories, protein_grams, carbs_grams, fat_grams, warnings }

/-- One macro entry of the response. -/
structure MacroInfo where
  grams : ℚ
  percent : ℚ
  calories : ℤ
deriving DecidableEq, Inhabited

/-- The `calculations` object of a successful goals response (the
estimated completion date, a wall-clock value, is not modelled). -/
structure Calculations where
  age : ℚ
  bmi_current : ℚ
  bmi_current_category : String
  bmi_goal : ℚ
  bmi_goal_category : String
  tmb : ℤ
  tdee : ℤ
  weight_change_kg : ℚ
  kg_per_week : ℚ
  goal_type : String
  daily_calories : ℤ
  calorie_adjustment : ℤ
  protein : MacroInfo
  carbs : MacroInfo
  fat : MacroInfo
  warnings : List String
deriving DecidableEq, Inhabited

/-- The response shaping of the goals handler: fixed-precision rounding
of each figure and the goal type derived from the sign of the weight
change. -/
def mkCalculations (g : GoalLocals) : Calculations :=
  { age := g.age
    bmi_current := round1 g.bmi_current
    bmi_current_category := getBMICategory g.bmi_current
    bmi_goal := round1 g.bmi_goal
    bmi_goal_category := getBMICategory g.bmi_goal
    tmb := jsRound g.tmb
    tdee := jsRound g.tdee
    weight_change_kg := round1 g.weight_change_kg
    kg_per_week := round2 g.kg_per_week
    goal_type := if g.weight_change_kg > 0 then "ganhar"
      else if g.weight_change_kg < 0 then "perder" else "manter"
    daily_calories := g.daily_calories
    calorie_adjustment := jsRound g.calorie_adjustment_per_day
    protein := ⟨round1 g.protein_grams, g.macros_percent.protein, jsRound g.protein_calories⟩
    carbs := ⟨round1 g.carbs_grams, g.macros_percent.carbs, jsRound g.carbs_calories⟩
    fat := ⟨round1 g.fat_grams, g.macros_percent.fat, jsRound g.fat_calories⟩
    warnings := g.warnings }

/-- A goals response: a 400 validation error or a 200 with calculations. -/
inductive GoalResponse
  | badRequest (error : String)
  | ok (calculations : Calculations)
deriving DecidableEq

/-- HTTP status of a goals response. -/
def GoalResponse.status : GoalResponse → ℕ
  | .badRequest _ => 400
  | .ok _ => 200

/-- Whether a goals response is the 200 success. -/
def GoalResponse.isOk : GoalResponse → Bool
  | .badRequest _ => false
  | .ok _ => true

/-- The calculations of a successful goals response (junk on a 400). -/
def theCalc : GoalResponse → Calculations
  | .badRequest _ => default
  | .ok c => c

/-- The goals POST handler: presence validation of the basic and goal
fields, the minimum-age check, the activity-level lookup, then the pure
computation.  (In the source the BMI and BMR assignments precede the
multiplier check; they are pure, so moving them after it is
observationally identical.) -/
def POST (currentYear : ℤ) (inp : GoalInput) : GoalResponse :=
  if falsyS inp.gender ∨ falsyN inp.birth_year ∨ falsyN inp.weight_kg ∨
      falsyN inp.height_cm ∨ falsyS inp.activity_level then
    .badRequest "Campos obrigatórios faltando: gender, birth_year, weight_kg, height_cm, activity_level"
  else if falsyN inp.goal_weight_kg ∨ falsyN inp.goal_weeks then
    .badRequest "Campos de meta faltando: goal_weight_kg, goal_weeks"
  else if ((currentYear : ℚ) - inp.birth_year.getD 0) < 13 then
    .badRequest "Idade mínima é 13 anos"
  else
    match ACTIVITY_MULTIPLIERS (inp.activity_level.getD "") with
    | none => .badRequest "Nível de atividade inválido"
    | some multiplier =>
        .ok (mkCalculations (goalLocals currentYear (inp.gender.getD "")
          (inp.birth_year.getD 0) (inp.weight_kg.getD 0) (inp.height_cm.getD 0)
          multiplier (inp.goal_weight_kg.getD 0) (inp.goal_weeks.getD 0)
          (inp.macro_focus.getD "")))

/-- The concrete input of the specification's BMR/TDEE example: male,
age 30 in 2025, 70 kg, 175 cm, sedentary, maintenance goal. -/
def exInputC1 : GoalInput :=
  ⟨some "masculino", some 1995, some 70, some 175, some "sedentario",
    some "manter", some 70, some 10, some "equilibrado"⟩

/-- A concrete input whose raw calorie target falls below the female
floor: 60 kg, 165 cm, sedentary, aiming at 50 kg in 5 weeks. -/
def exInputC2 : GoalInput :=
  ⟨some "feminino", some 1995, some 60, some 165, some "sedentario",
    some "perder", some 50, some 5, some "equilibrado"⟩

/-- A concrete ketogenic input whose daily calories come to exactly
2000: male, age 30, 70 kg, 177.8 cm, sedentary, maintenance. -/
def exInputC3 : GoalInput :=
  ⟨some "masculino", some 1995, some 70, some 177.8, some "sedentario",
    some "manter", some 70, some 10, some "cetogenico"⟩

/-- A concrete input whose goal BMI is exactly 30 (120 kg at 200 cm) and
whose other figures trigger no warning at all: 0.5 kg/week, calories in
range. -/
def exInputC8 : GoalInput :=
  ⟨some "masculino", some 1995, some 100, some 200, some "sedentario",
    some "perder", some 120, some 40, some "equilibrado"⟩

/-- The shape of the calorie warning: one of the two bound warnings or
empty. -/
def CalWarningShape (cw : String) : Prop :=
  (∃ a, cw = minCalorieWarning a) ∨ (∃ b, cw = maxCalorieWarning b) ∨ cw = ""

/-- The warnings list as the handler builds it, for the membership
lemmas: the rate slot, the calorie slot, the BMI slot, in push order. -/
def warningsShape (kpw bg : ℚ) (cw : String) : List String :=
  (if kpw > 1 then [tooFastWarning kpw]
    else if kpw < 0.25 then [tooSlowWarning kpw] else []) ++
  (if cw = "" then [] else [cw]) ++
  (if bg < 18.5 then [bmiGoalLowWarning]
    else if bg > 30 then [bmiGoalHighWarning] else [])

end Goals

namespace Profile

/-- The stored user profile (the `UserProfile` interface of the profile
route).  Fields the write validation guarantees are plain values; the
fields the handler stores without checking keep their optional type, as
the source stores whatever the body held (possibly `undefined`). -/
structure UserProfile where
  user_id : String
  gender : String
  birth_year : ℚ
  weight_kg : ℚ
  height_cm : ℚ
  activity_level : Option String
  goal_type : Option String
  goal_weight_kg : Option ℚ
  goal_weeks : Option ℚ
  daily_calories : Option ℚ
  macro_focus : Option String
  protein_percent : ℚ
  carbs_percent : ℚ
  fat_percent : ℚ
  protein_grams : Option ℚ
  carbs_grams : Option ℚ
  fat_grams : Option ℚ
  notifications_enabled : Bool
deriving DecidableEq

/-- The request body of the profile POST, as destructured by the
handler: every field may be absent. -/
structure ProfileBody where
  user_id : Option String
  gender : Option String
  birth_year : Option ℚ
  weight_kg : Option ℚ
  height_cm : Option ℚ
  activity_level : Option String
  goal_type : Option String
  goal_weight_kg : Option ℚ
  goal_weeks : Option ℚ
  daily_calories : Option ℚ
  macro_focus : Option String
  protein_percent : Option ℚ
  carbs_percent : Option ℚ
  fat_percent : Option ℚ
  protein_grams : Option ℚ
  carbs_grams : Option ℚ
  fat_grams : Option ℚ
  notifications_enabled : Option Bool
deriving DecidableEq

/-- The macro-sum validation `protein_percent + carbs_percent +
fat_percent !== 100`: in JavaScript an absent operand makes the sum NaN,
which never equals 100, so the check passes exactly when all three
percentages are present and sum to 100. -/
abbrev macroSumIs100 (b : ProfileBody) : Prop :=
  b.protein_percent.isSome ∧ b.carbs_percent.isSome ∧ b.fat_percent.isSome ∧
    b.protein_percent.getD 0 + b.carbs_percent.getD 0 + b.fat_percent.getD 0 = 100

/-- The profile object the handler builds from a validated body
(`notifications_enabled` defaults to true when absent). -/
def mkProfile (b : ProfileBody) : UserProfile :=
  { user_id := b.user_id.getD ""
    gender := b.gender.getD ""
    birth_year := b.birth_year.getD 0
    weight_kg := b.weight_kg.getD 0
    height_cm := b.height_cm.getD 0
    activity_level := b.activity_level
    goal_type := b.goal_type
    goal_weight_kg := b.goal_weight_kg
    goal_weeks := b.goal_weeks
    daily_calories := b.daily_calories
    macro_focus := b.macro_focus
    protein_percent := b.protein_percent.getD 0
    carbs_percent := b.carbs_percent.getD 0
    fat_percent := b.fat_percent.getD 0
    protein_grams := b.protein_grams
    carbs_grams := b.carbs_grams
    fat_grams := b.fat_grams
    notifications_enabled := b.notifications_enabled.getD true }

/-- The in-memory profile map (`profiles = new Map<string, UserProfile>()`). -/
def Store : Type := String → Option UserProfile

/-- The empty profile map. -/
def emptyStore : Store := fun _ => none

/-- `profiles.set(user_id, profile)`. -/
def Store.set (s : Store) (k : String) (p : UserProfile) : Store :=
  fun k2 => if k2 = k then some p else s k2

/-- A profile GET response. -/
inductive GetResp
  | badRequest (error : String)
  | notFound (error message : String)
  | found (profile : UserProfile)
deriving DecidableEq

/-- HTTP status of a profile GET response. -/
def GetResp.status : GetResp → ℕ
  | .badRequest _ => 400
  | .notFound _ _ => 404
  | .found _ => 200

/-- A profile POST response: a 400 validation error, or the saved
profile with status 201 (created) or 200 (replaced) and a message. -/
inductive PostResp
  | badRequest (error : String)
  | saved (statusCode : ℕ) (profile : UserProfile) (message : String)
deriving DecidableEq

/-- HTTP status of a profile POST response. -/
def PostResp.status : PostResp → ℕ
  | .badRequest _ => 400
  | .saved code _ _ => code

/-- Whether a profile POST response is a success. -/
def PostResp.isSaved : PostResp → Bool
  | .badRequest _ => false
  | .saved _ _ _ => true

/-- The saved profile of a successful POST response (junk on a 400). -/
def PostResp.savedProfile : PostResp → Option UserProfile
  | .badRequest _ => none
  | .saved _ p _ => some p

/-- The profile GET handler: the identifier comes from the `x-user-id`
header, falling back to the `userId` query parameter (`||` takes the
second when the first is null or empty). -/
def GET (store : Store) (headerUserId queryUserId : Option String) : GetResp :=
  let userId := if falsyS headerUserId then queryUserId else headerUserId
  if falsyS userId then .badRequest "user_id não fornecido"
  else
    match store (userId.getD "") with
    | none => .notFound "Perfil não encontrado" "Usuário ainda não completou o onboarding"
    | some profile => .found profile

/-- The profile POST handler: each validation in source order, then the
full-replacement write keyed by `user_id`, returning 201 when the key
was new and 200 when it replaced an existing entry. -/
def POST (currentYear : ℤ) (store : Store) (body : ProfileBody) : PostResp × Store :=
  if falsyS body.user_id then
    (.badRequest "user_id é obrigatório", store)
  else if falsyS body.gender ∨ falsyN body.birth_year ∨ falsyN body.weight_kg ∨
      falsyN body.height_cm then
    (.badRequest "Campos obrigatórios faltando: gender, birth_year, weight_kg, height_cm", store)
  else if body.birth_year.getD 0 < 1920 ∨ (currentYear : ℚ) < body.birth_year.getD 0 then
    (.badRequest ("Ano de nascimento inválido. Deve estar entre 1920 e " ++ toString currentYear), store)
  else if (currentYear : ℚ) - body.birth_year.getD 0 < 13 then
    (.badRequest "Idade mínima é 13 anos", store)
  else if body.weight_kg.getD 0 < 30 ∨ (200 : ℚ) < body.weight_kg.getD 0 then
    (.badRequest "Peso deve estar entre 30 e 200 kg", store)
  else if body.height_cm.getD 0 < 100 ∨ (250 : ℚ) < body.height_cm.getD 0 then
    (.badRequest "Altura deve estar entre 100 e 250 cm", store)
  else if ¬ macroSumIs100 body then
    -- The source interpolates the sum (NaN when a field is absent); Rat's
    -- printer stands in for the JavaScript number formatting here.
    (.badRequest ("Soma dos macronutrientes deve ser 100%. Atual: " ++
      (toString (body.protein_percent.getD 0 + body.carbs_percent.getD 0 +
        body.fat_percent.getD 0) ++ "%")), store)
  else
    let profile := mkProfile body
    let isNew := (store (body.user_id.getD "")).isNone
    let store2 := store.set (body.user_id.getD "") profile
    (.saved (if isNew then 201 else 200) profile
      (if isNew then "Perfil criado com sucesso" else "Perfil atualizado com sucesso"),
      store2)

/-- The macro-sum invariant over the whole store: every stored profile's
percentages sum to exactly 100. -/
def storeInv (store : Store) : Prop :=
  ∀ uid p, store uid = some p →
    p.protein_percent + p.carbs_percent + p.fat_percent = 100

/-- A profile already present before the write of the C4 witness. -/
def oldProfile : UserProfile :=
  { user_id := "u1", gender := "masculino", birth_year := 1990, weight_kg := 80,
    height_cm := 180, activity_level := some "sedentario", goal_type := some "manter",
    goal_weight_kg := some 80, goal_weeks := some 10, daily_calories := some 2500,
    macro_focus := some "equilibrado", protein_percent := 40, carbs_percent := 40,
    fat_percent := 20, protein_grams := some 100, carbs_grams := some 100,
    fat_grams := some 50, notifications_enabled := true }

/-- A store holding `oldProfile` under the key the C4 witness writes. -/
def store1 : Store := fun k => if k = "u1" then some oldProfile else none

/-- A valid write body for the same key, differing from `oldProfile` in
every field it can. -/
def bodyC4 : ProfileBody :=
  ⟨some "u1", some "feminino", some 1995, some 60, some 165, some "levemente_ativo",
    some "perder", some 55, some 8, some 1800, some "perda_gordura", some 35, some 40,
    some 25, some 157.5, some 180, some 50, some false⟩

end Profile

namespace Vision

/-- What the handlers read from an OpenAI chat completion: the message
content (null when the model returned none), the model name, the finish
reason and the token usage. -/
structure ChatResponse where
  content : Option String
  model : String
  finish_reason : String
  total_tokens : ℕ
deriving DecidableEq

/-- The outcome of `openai.chat.completions.create(...)` inside the try
block: a response, or a thrown `Error` with its message, or a thrown
non-`Error` value. -/
inductive CallResult
  | ok (response : ChatResponse)
  | thrown (message : String)
  | thrownNonError
deriving DecidableEq

/-- The two fields of the parsed model JSON that the handlers inspect
(`nome_do_prato`, `calorias_totais`); either may be absent. -/
structure AnalysisResult where
  nome_do_prato : Option String
  calorias_totais : Option ℚ
deriving DecidableEq

/-- Partial model of `JSON.parse` composed with extraction of the two
inspected fields.  Only the empty-object document (the case the
specification's examples exercise) is interpreted; every other string is
treated as a parse failure, i.e. a thrown `SyntaxError`. -/
def parseAnalysis (s : String) : Option AnalysisResult :=
  if s = "\x7b\x7d" then some ⟨none, none⟩ else none

/-- A vision response body, one constructor per `NextResponse.json` call
shape of the handlers. -/
inductive VBody
  | simpleError (error : String)
  | detailedError (error details : String)
  | debugError (error details model finish_reason : String) (usage : ℕ)
  | schemaError (error details : String) (raw : AnalysisResult)
  | success (result : AnalysisResult)
deriving DecidableEq

/-- A vision response: HTTP status and body. -/
structure VResp where
  status : ℕ
  body : VBody
deriving DecidableEq

/-- The vision POST handler with the empty-response guard and the
error-classification catch block.  The success path: reject a missing
image; fail 500 with the model, finish reason and usage when the content
is null, empty after trimming, or the literal empty-object string; parse
the JSON; fail 500 when neither a total-calorie field nor a dish name is
present (both falsy); otherwise return the parsed result.  The catch
block classifies a thrown `Error` by its message text, in source order:
auth markers, then rate-limit markers, then quota markers, then the
generic 500. -/
def POSTfixed (image : Option String) (call : CallResult) : VResp :=
  if falsyS image then ⟨400, .simpleError "Campo \"image\" é obrigatório"⟩
  else
    match call with
    | .ok response =>
        if response.content.getD "" = "" ∨ jsTrim (response.content.getD "") = "" ∨
            response.content.getD "" = "\x7b\x7d" then
          ⟨500, .debugError "A análise não pôde ser concluída"
            "OpenAI retornou resposta vazia. Possíveis causas: créditos esgotados, rate limit atingido ou problema com a API Key."
            response.model response.finish_reason response.total_tokens⟩
        else
          match parseAnalysis (response.content.getD "") with
          | none => ⟨500, .detailedError "Ocorreu um erro ao analisar a imagem." "Unexpected token in JSON"⟩
          | some analysisResult =>
              if falsyN analysisResult.calorias_totais ∧ falsyS analysisResult.nome_do_prato then
                ⟨500, .schemaError "Resposta inválida da análise"
                  "A análise não retornou os campos nutricionais esperados." analysisResult⟩
              else ⟨200, .success analysisResult⟩
    | .thrown message =>
        if strIncludes message "401" ∨ strIncludes message "Unauthorized" then
          ⟨500, .detailedError "Erro de autenticação com OpenAI"
            "API Key inválida ou expirada. Verifique as configurações."⟩
        else if strIncludes message "429" ∨ strIncludes message "Rate limit" then
          ⟨429, .detailedError "Limite de requisições atingido"
            "Muitas requisições em pouco tempo. Aguarde alguns instantes e tente novamente."⟩
        else if strIncludes message "quota" ∨ strIncludes message "insufficient_quota" then
          ⟨500, .detailedError "Créditos esgotados"
            "Sem créditos disponíveis na conta OpenAI. Adicione créditos para continuar."⟩
        else ⟨500, .detailedError "Ocorreu um erro ao analisar a imagem." message⟩
    | .thrownNonError => ⟨500, .detailedError "Ocorreu um erro ao analisar a imagem." "Erro desconhecido"⟩

/-- The alternative vision POST handler (the variant without the
empty-response guard): falsy content falls back to the empty-object
string before parsing (`JSON.parse(content || ...)`), the parsed value
is returned as a 200 with no schema check, and the catch block maps
every thrown value to the one generic 500 with the message as details. -/
def POSTalt (image : Option String) (call : CallResult) : VResp :=
  if falsyS image then ⟨400, .simpleError "Campo \"image\" é obrigatório"⟩
  else
    match call with
    | .ok response =>
        match parseAnalysis (if response.content.getD "" = "" then "\x7b\x7d"
            else response.content.getD "") with
        | some analysisResult => ⟨200, .success analysisResult⟩
        | none => ⟨500, .detailedError "Ocorreu um erro ao analisar a imagem." "Unexpected token in JSON"⟩
    | .thrown message => ⟨500, .detailedError "Ocorreu um erro ao analisar a imagem." message⟩
    | .thrownNonError => ⟨500, .detailedError "Ocorreu um erro ao analisar a imagem." "Erro desconhecido"⟩

/-- The model response of the empty-object counterexample: content is
the literal empty-object string, with a finish reason and usage. -/
def mockResp : ChatResponse := ⟨some "\x7b\x7d", "gpt-4o", "stop", 42⟩

/-- An error message carrying both the auth marker and the rate-limit
markers. -/
def overlapMsg : String := "Unauthorized: 429 Rate limit"

end Vision

namespace Goals

/-- Shape of the goals handler on the success path: once the three
validations pass and the activity level resolves, the response is the
shaped pure computation. -/
lemma POST_eq_ok (currentYear : ℤ) (inp : GoalInput) (m : ℚ)
    (h1 : ¬(falsyS inp.gender ∨ falsyN inp.birth_year ∨ falsyN inp.weight_kg ∨
      falsyN inp.height_cm ∨ falsyS inp.activity_level))
    (h2 : ¬(falsyN inp.goal_weight_kg ∨ falsyN inp.goal_weeks))
    (h3 : ¬(((currentYear : ℚ) - inp.birth_year.getD 0) < 13))
    (hm : ACTIVITY_MULTIPLIERS (inp.activity_level.getD "") = some m) :
    POST currentYear inp = .ok (mkCalculations (goalLocals currentYear (inp.gender.getD "")
      (inp.birth_year.getD 0) (inp.weight_kg.getD 0) (inp.height_cm.getD 0)
      m (inp.goal_weight_kg.getD 0) (inp.goal_weeks.getD 0) (inp.macro_focus.getD ""))) := by
  unfold POST
  rw [if_neg h1, if_neg h2, if_neg h3, hm]

/-- A successful goals response implies every validation passed and the
activity level resolved to some multiplier. -/
lemma of_isOk {currentYear : ℤ} {inp : GoalInput}
    (h : (POST currentYear inp).isOk = true) :
    ∃ m, ¬(falsyS inp.gender ∨ falsyN inp.birth_year ∨ falsyN inp.weight_kg ∨
        falsyN inp.height_cm ∨ falsyS inp.activity_level) ∧
      ¬(falsyN inp.goal_weight_kg ∨ falsyN inp.goal_weeks) ∧
      ¬(((currentYear : ℚ) - inp.birth_year.getD 0) < 13) ∧
      ACTIVITY_MULTIPLIERS (inp.activity_level.getD "") = some m := by
  unfold POST at h
  by_cases h1 : falsyS inp.gender ∨ falsyN inp.birth_year ∨ falsyN inp.weight_kg ∨
      falsyN inp.height_cm ∨ falsyS inp.activity_level
  · rw [if_pos h1] at h
    simp [GoalResponse.isOk] at h
  rw [if_neg h1] at h
  by_cases h2 : falsyN inp.goal_weight_kg ∨ falsyN inp.goal_weeks
  · rw [if_pos h2] at h
    simp [GoalResponse.isOk] at h
  rw [if_neg h2] at h
  by_cases h3 : ((currentYear : ℚ) - inp.birth_year.getD 0) < 13
  · rw [if_pos h3] at h
    simp [GoalResponse.isOk] at h
  rw [if_neg h3] at h
  cases hm : ACTIVITY_MULTIPLIERS (inp.activity_level.getD "") with
  | none => rw [hm] at h; simp [GoalResponse.isOk] at h
  | some m => exact ⟨m, h1, h2, h3, rfl⟩

/-- A nonempty literal followed by anything is not the empty string. -/
lemma append_ne_empty (a b : String) (h : a.data ≠ []) : a ++ b ≠ "" := by
  intro he
  apply h
  have hd : a.data ++ b.data = [] := by
    have h2 := congrArg String.data he
    rwa [String.data_append] at h2
  exact (List.append_eq_nil.mp hd).1

lemma minCalorieWarning_ne_empty (m : ℤ) : minCalorieWarning m ≠ "" :=
  append_ne_empty _ _ (by decide)

lemma maxCalorieWarning_ne_empty (m : ℤ) : maxCalorieWarning m ≠ "" :=
  append_ne_empty _ _ (by decide)

/-- Two strings differing at some index differ. -/
lemma str_ne_of_getElem (s t : String) (k : ℕ) (h : s.data[k]? ≠ t.data[k]?) : s ≠ t :=
  fun he => h (by rw [he])

/-- Indexing an appended string inside its literal prefix. -/
lemma lit_append_getElem (a b : String) (k : ℕ) (h : k < a.data.length) :
    (a ++ b).data[k]? = a.data[k]? := by
  rw [String.data_append, List.getElem?_append_left h]

lemma tooFast_ne_tooSlow (x y : ℚ) : tooFastWarning x ≠ tooSlowWarning y := by
  apply str_ne_of_getElem _ _ 30
  unfold tooFastWarning tooSlowWarning
  rw [lit_append_getElem _ _ 30 (by decide), lit_append_getElem _ _ 30 (by decide)]
  decide

lemma tooFast_ne_minCal (x : ℚ) (m : ℤ) : tooFastWarning x ≠ minCalorieWarning m := by
  apply str_ne_of_getElem _ _ 0
  unfold tooFastWarning minCalorieWarning
  rw [lit_append_getElem _ _ 0 (by decide), lit_append_getElem _ _ 0 (by decide)]
  decide

lemma tooFast_ne_maxCal (x : ℚ) (m : ℤ) : tooFastWarning x ≠ maxCalorieWarning m := by
  apply str_ne_of_getElem _ _ 0
  unfold tooFastWarning maxCalorieWarning
  rw [lit_append_getElem _ _ 0 (by decide), lit_append_getElem _ _ 0 (by decide)]
  decide

lemma tooFast_ne_bmiLow (x : ℚ) : tooFastWarning x ≠ bmiGoalLowWarning := by
  apply str_ne_of_getElem _ _ 0
  unfold tooFastWarning bmiGoalLowWarning
  rw [lit_append_getElem _ _ 0 (by decide)]
  decide

lemma tooFast_ne_bmiHigh (x : ℚ) : tooFastWarning x ≠ bmiGoalHighWarning := by
  apply str_ne_of_getElem _ _ 0
  unfold tooFastWarning bmiGoalHighWarning
  rw [lit_append_getElem _ _ 0 (by decide)]
  decide

lemma tooSlow_ne_minCal (x : ℚ) (m : ℤ) : tooSlowWarning x ≠ minCalorieWarning m := by
  apply str_ne_of_getElem _ _ 0
  unfold tooSlowWarning minCalorieWarning
  rw [lit_append_getElem _ _ 0 (by decide), lit_append_getElem _ _ 0 (by decide)]
  decide

lemma tooSlow_ne_maxCal (x : ℚ) (m : ℤ) : tooSlowWarning x ≠ maxCalorieWarning m := by
  apply str_ne_of_getElem _ _ 0
  unfold tooSlowWarning maxCalorieWarning
  rw [lit_append_getElem _ _ 0 (by decide), lit_append_getElem _ _ 0 (by decide)]
  decide

lemma tooSlow_ne_bmiLow (x : ℚ) : tooSlowWarning x ≠ bmiGoalLowWarning := by
  apply str_ne_of_getElem _ _ 0
  unfold tooSlowWarning bmiGoalLowWarning
  rw [lit_append_getElem _ _ 0 (by decide)]
  decide

lemma tooSlow_ne_bmiHigh (x : ℚ) : tooSlowWarning x ≠ bmiGoalHighWarning := by
  apply str_ne_of_getElem _ _ 0
  unfold tooSlowWarning bmiGoalHighWarning
  rw [lit_append_getElem _ _ 0 (by decide)]
  decide

lemma bmiLow_ne_minCal (m : ℤ) : bmiGoalLowWarning ≠ minCalorieWarning m := by
  apply str_ne_of_getElem _ _ 0
  unfold bmiGoalLowWarning minCalorieWarning
  rw [lit_append_getElem _ _ 0 (by decide)]
  decide

lemma bmiLow_ne_maxCal (m : ℤ) : bmiGoalLowWarning ≠ maxCalorieWarning m := by
  apply str_ne_of_getElem _ _ 0
  unfold bmiGoalLowWarning maxCalorieWarning
  rw [lit_append_getElem _ _ 0 (by decide)]
  decide

lemma bmiHigh_ne_minCal (m : ℤ) : bmiGoalHighWarning ≠ minCalorieWarning m := by
  apply str_ne_of_getElem _ _ 0
  unfold bmiGoalHighWarning minCalorieWarning
  rw [lit_append_getElem _ _ 0 (by decide)]
  decide

lemma bmiHigh_ne_maxCal (m : ℤ) : bmiGoalHighWarning ≠ maxCalorieWarning m := by
  apply str_ne_of_getElem _ _ 0
  unfold bmiGoalHighWarning maxCalorieWarning
  rw [lit_append_getElem _ _ 0 (by decide)]
  decide

lemma bmiLow_ne_bmiHigh : bmiGoalLowWarning ≠ bmiGoalHighWarning := by decide

lemma tooSlow_ne_tooFast (x y : ℚ) : tooSlowWarning x ≠ tooFastWarning y :=
  (tooFast_ne_tooSlow y x).symm

lemma bmiLow_ne_tooFast (x : ℚ) : bmiGoalLowWarning ≠ tooFastWarning x :=
  (tooFast_ne_bmiLow x).symm

lemma bmiLow_ne_tooSlow (x : ℚ) : bmiGoalLowWarning ≠ tooSlowWarning x :=
  (tooSlow_ne_bmiLow x).symm

lemma bmiHigh_ne_tooFast (x : ℚ) : bmiGoalHighWarning ≠ tooFastWarning x :=
  (tooFast_ne_bmiHigh x).symm

lemma bmiHigh_ne_tooSlow (x : ℚ) : bmiGoalHighWarning ≠ tooSlowWarning x :=
  (tooSlow_ne_bmiHigh x).symm

lemma bmiHigh_ne_bmiLow : bmiGoalHighWarning ≠ bmiGoalLowWarning :=
  bmiLow_ne_bmiHigh.symm

lemma tooFast_mem_iff (kpw bg : ℚ) (cw : String) (hcw : CalWarningShape cw) :
    tooFastWarning kpw ∈ warningsShape kpw bg cw ↔ kpw > 1 := by
  unfold warningsShape
  constructor
  · intro hmem
    by_cases hf : kpw > 1
    · exact hf
    exfalso
    rw [if_neg hf] at hmem
    rcases List.mem_append.mp hmem with hm12 | hm3
    · rcases List.mem_append.mp hm12 with hm1 | hm2
      · by_cases hs : kpw < 0.25
        · rw [if_pos hs] at hm1
          exact tooFast_ne_tooSlow kpw kpw (List.mem_singleton.mp hm1)
        · rw [if_neg hs] at hm1
          exact List.not_mem_nil _ hm1
      · by_cases hc : cw = ""
        · rw [if_pos hc] at hm2
          exact List.not_mem_nil _ hm2
        · rw [if_neg hc] at hm2
          have he := List.mem_singleton.mp hm2
          rcases hcw with ⟨a, rfl⟩ | ⟨b, rfl⟩ | rfl
          · exact tooFast_ne_minCal kpw a he
          · exact tooFast_ne_maxCal kpw b he
          · exact hc rfl
    · by_cases hl : bg < 18.5
      · rw [if_pos hl] at hm3
        exact tooFast_ne_bmiLow kpw (List.mem_singleton.mp hm3)
      · rw [if_neg hl] at hm3
        by_cases hh : bg > 30
        · rw [if_pos hh] at hm3
          exact tooFast_ne_bmiHigh kpw (List.mem_singleton.mp hm3)
        · rw [if_neg hh] at hm3
          exact List.not_mem_nil _ hm3
  · intro hf
    rw [if_pos hf]
    simp [List.mem_append]

lemma tooSlow_mem_iff (kpw bg : ℚ) (cw : String) (hcw : CalWarningShape cw) :
    tooSlowWarning kpw ∈ warningsShape kpw bg cw ↔ kpw < 0.25 := by
  unfold warningsShape
  constructor
  · intro hmem
    by_cases hs : kpw < 0.25
    · exact hs
    exfalso
    rcases List.mem_append.mp hmem with hm12 | hm3
    · rcases List.mem_append.mp hm12 with hm1 | hm2
      · by_cases hf : kpw > 1
        · rw [if_pos hf] at hm1
          exact tooSlow_ne_tooFast kpw kpw (List.mem_singleton.mp hm1)
        · rw [if_neg hf, if_neg hs] at hm1
          exact List.not_mem_nil _ hm1
      · by_cases hc : cw = ""
        · rw [if_pos hc] at hm2
          exact List.not_mem_nil _ hm2
        · rw [if_neg hc] at hm2
          have he := List.mem_singleton.mp hm2
          rcases hcw with ⟨a, rfl⟩ | ⟨b, rfl⟩ | rfl
          · exact tooSlow_ne_minCal kpw a he
          · exact tooSlow_ne_maxCal kpw b he
          · exact hc rfl
    · by_cases hl : bg < 18.5
      · rw [if_pos hl] at hm3
        exact tooSlow_ne_bmiLow kpw (List.mem_singleton.mp hm3)
      · rw [if_neg hl] at hm3
        by_cases hh : bg > 30
        · rw [if_pos hh] at hm3
          exact tooSlow_ne_bmiHigh kpw (List.mem_singleton.mp hm3)
        · rw [if_neg hh] at hm3
          exact List.not_mem_nil _ hm3
  · intro hs
    have hf : ¬ (kpw > 1) := by
      rw [gt_iff_lt, not_lt]
      calc kpw ≤ 0.25 := le_of_lt hs
        _ ≤ 1 := by norm_num
    rw [if_neg hf, if_pos hs]
    simp [List.mem_append]

lemma bmiLow_mem_iff (kpw bg : ℚ) (cw : String) (hcw : CalWarningShape cw) :
    bmiGoalLowWarning ∈ warningsShape kpw bg cw ↔ bg < 18.5 := by
  unfold warningsShape
  constructor
  · intro hmem
    by_cases hl : bg < 18.5
    · exact hl
    exfalso
    rcases List.mem_append.mp hmem with hm12 | hm3
    · rcases List.mem_append.mp hm12 with hm1 | hm2
      · by_cases hf : kpw > 1
        · rw [if_pos hf] at hm1
          exact bmiLow_ne_tooFast kpw (List.mem_singleton.mp hm1)
        · rw [if_neg hf] at hm1
          by_cases hs : kpw < 0.25
          · rw [if_pos hs] at hm1
            exact bmiLow_ne_tooSlow kpw (List.mem_singleton.mp hm1)
          · rw [if_neg hs] at hm1
            exact List.not_mem_nil _ hm1
      · by_cases hc : cw = ""
        · rw [if_pos hc] at hm2
          exact List.not_mem_nil _ hm2
        · rw [if_neg hc] at hm2
          have he := List.mem_singleton.mp hm2
          rcases hcw with ⟨a, rfl⟩ | ⟨b, rfl⟩ | rfl
          · exact bmiLow_ne_minCal a he
          · exact bmiLow_ne_maxCal b he
          · exact hc rfl
    · rw [if_neg hl] at hm3
      by_cases hh : bg > 30
      · rw [if_pos hh] at hm3
        exact bmiLow_ne_bmiHigh (List.mem_singleton.mp hm3)
      · rw [if_neg hh] at hm3
        exact List.not_mem_nil _ hm3
  · intro hl
    rw [if_pos hl]
    simp [List.mem_append]

lemma bmiHigh_mem_iff (kpw bg : ℚ) (cw : String) (hcw : CalWarningShape cw) :
    bmiGoalHighWarning ∈ warningsShape kpw bg cw ↔ bg > 30 := by
  unfold warningsShape
  constructor
  · intro hmem
    by_cases hh : bg > 30
    · exact hh
    exfalso
    rcases List.mem_append.mp hmem with hm12 | hm3
    · rcases List.mem_append.mp hm12 with hm1 | hm2
      · by_cases hf : kpw > 1
        · rw [if_pos hf] at hm1
          exact bmiHigh_ne_tooFast kpw (List.mem_singleton.mp hm1)
        · rw [if_neg hf] at hm1
          by_cases hs : kpw < 0.25
          · rw [if_pos hs] at hm1
            exact bmiHigh_ne_tooSlow kpw (List.mem_singleton.mp hm1)
          · rw [if_neg hs] at hm1
            exact List.not_mem_nil _ hm1
      · by_cases hc : cw = ""
        · rw [if_pos hc] at hm2
          exact List.not_mem_nil _ hm2
        · rw [if_neg hc] at hm2
          have he := List.mem_singleton.mp hm2
          rcases hcw with ⟨a, rfl⟩ | ⟨b, rfl⟩ | rfl
          · exact bmiHigh_ne_minCal a he
          · exact bmiHigh_ne_maxCal b he
          · exact hc rfl
    · by_cases hl : bg < 18.5
      · rw [if_pos hl] at hm3
        exact bmiHigh_ne_bmiLow (List.mem_singleton.mp hm3)
      · rw [if_neg hl, if_neg hh] at hm3
        exact List.not_mem_nil _ hm3
  · intro hh
    have hl : ¬ (bg < 18.5) := by
      rw [not_lt]
      calc (18.5 : ℚ) ≤ 30 := by norm_num
        _ ≤ bg := le_of_lt hh
    rw [if_neg hl, if_pos hh]
    simp [List.mem_append]

/-- The warnings the handler computes are exactly the shape the
membership lemmas describe, and its calorie slot has the required
shape. -/
lemma goalLocals_warnings_eq (currentYear : ℤ) (gender : String)
    (birth_year weight_kg height_cm multiplier goal_weight_kg goal_weeks : ℚ)
    (macro_focus : String) :
    ∃ cw, CalWarningShape cw ∧
      (goalLocals currentYear gender birth_year weight_kg height_cm multiplier
        goal_weight_kg goal_weeks macro_focus).warnings =
      warningsShape |(goal_weight_kg - weight_kg) / goal_weeks|
        (goal_weight_kg / ((height_cm / 100) * (height_cm / 100))) cw := by
  refine ⟨_, ?_, rfl⟩
  unfold CalWarningShape
  split_ifs <;>
    first
      | exact Or.inl ⟨_, rfl⟩
      | exact Or.inr (Or.inl ⟨_, rfl⟩)
      | exact Or.inr (Or.inr rfl)

end Goals

end NutriAI

namespace NutriAI

open Goals in
/-- C1: for every valid goal-calculator input the BMR is Mifflin-St Jeor
(male `10w + 6.25h - 5*age + 5`, otherwise the same with `- 161`) and the
TDEE is that BMR times the resolved activity multiplier; the multiplier
table is sedentario 1.2, levemente_ativo 1.375, moderadamente_ativo 1.55,
muito_ativo 1.725, super_ativo 1.9; and on the example input (70 kg,
175 cm, age 30, male) the internal BMR is 1648.75 and the sedentary TDEE
is 1978.5. -/
theorem goals_bmr_mifflin_tdee (currentYear : ℤ) (inp : Goals.GoalInput)
    (h : (Goals.POST currentYear inp).isOk = true) :
    (∃ m, Goals.ACTIVITY_MULTIPLIERS (inp.activity_level.getD "") = some m ∧
      (Goals.theCalc (Goals.POST currentYear inp)).tmb =
        jsRound (if inp.gender.getD "" = "masculino"
          then (10 * inp.weight_kg.getD 0) + (6.25 * inp.height_cm.getD 0) -
            (5 * ((currentYear : ℚ) - inp.birth_year.getD 0)) + 5
          else (10 * inp.weight_kg.getD 0) + (6.25 * inp.height_cm.getD 0) -
            (5 * ((currentYear : ℚ) - inp.birth_year.getD 0)) - 161) ∧
      (Goals.theCalc (Goals.POST currentYear inp)).tdee =
        jsRound ((if inp.gender.getD "" = "masculino"
          then (10 * inp.weight_kg.getD 0) + (6.25 * inp.height_cm.getD 0) -
            (5 * ((currentYear : ℚ) - inp.birth_year.getD 0)) + 5
          else (10 * inp.weight_kg.getD 0) + (6.25 * inp.height_cm.getD 0) -
            (5 * ((currentYear : ℚ) - inp.birth_year.getD 0)) - 161) * m)) ∧
    Goals.ACTIVITY_MULTIPLIERS "sedentario" = some 1.2 ∧
    Goals.ACTIVITY_MULTIPLIERS "levemente_ativo" = some 1.375 ∧
    Goals.ACTIVITY_MULTIPLIERS "moderadamente_ativo" = some 1.55 ∧
    Goals.ACTIVITY_MULTIPLIERS "muito_ativo" = some 1.725 ∧
    Goals.ACTIVITY_MULTIPLIERS "super_ativo" = some 1.9 ∧
    (Goals.goalLocals 2025 "masculino" 1995 70 175 1.2 70 10 "equilibrado").tmb = 1648.75 ∧
    (Goals.goalLocals 2025 "masculino" 1995 70 175 1.2 70 10 "equilibrado").tdee = 1978.5 := by
  obtain ⟨m, h1, h2, h3, hm⟩ := Goals.of_isOk h
  rw [Goals.POST_eq_ok currentYear inp m h1 h2 h3 hm]
  refine ⟨⟨m, hm, ?_, ?_⟩, rfl, rfl, rfl, rfl, rfl, ?_, ?_⟩
  · simp only [Goals.theCalc, Goals.mkCalculations, Goals.goalLocals]
  · simp only [Goals.theCalc, Goals.mkCalculations, Goals.goalLocals]
  · norm_num [Goals.goalLocals]
  · norm_num [Goals.goalLocals]

/-- C1 witness: the BMR/TDEE theorem applied to the concrete example
input, its success hypothesis discharged by evaluation. -/
theorem goals_bmr_mifflin_tdee_wit :
    (Goals.POST 2025 Goals.exInputC1).isOk = true ∧
    ((∃ m, Goals.ACTIVITY_MULTIPLIERS (Goals.exInputC1.activity_level.getD "") = some m ∧
      (Goals.theCalc (Goals.POST 2025 Goals.exInputC1)).tmb =
        jsRound (if Goals.exInputC1.gender.getD "" = "masculino"
          then (10 * Goals.exInputC1.weight_kg.getD 0) + (6.25 * Goals.exInputC1.height_cm.getD 0) -
            (5 * ((2025 : ℚ) - Goals.exInputC1.birth_year.getD 0)) + 5
          else (10 * Goals.exInputC1.weight_kg.getD 0) + (6.25 * Goals.exInputC1.height_cm.getD 0) -
            (5 * ((2025 : ℚ) - Goals.exInputC1.birth_year.getD 0)) - 161) ∧
      (Goals.theCalc (Goals.POST 2025 Goals.exInputC1)).tdee =
        jsRound ((if Goals.exInputC1.gender.getD "" = "masculino"
          then (10 * Goals.exInputC1.weight_kg.getD 0) + (6.25 * Goals.exInputC1.height_cm.getD 0) -
            (5 * ((2025 : ℚ) - Goals.exInputC1.birth_year.getD 0)) + 5
          else (10 * Goals.exInputC1.weight_kg.getD 0) + (6.25 * Goals.exInputC1.height_cm.getD 0) -
            (5 * ((2025 : ℚ) - Goals.exInputC1.birth_year.getD 0)) - 161) * m)) ∧
    Goals.ACTIVITY_MULTIPLIERS "sedentario" = some 1.2 ∧
    Goals.ACTIVITY_MULTIPLIERS "levemente_ativo" = some 1.375 ∧
    Goals.ACTIVITY_MULTIPLIERS "moderadamente_ativo" = some 1.55 ∧
    Goals.ACTIVITY_MULTIPLIERS "muito_ativo" = some 1.725 ∧
    Goals.ACTIVITY_MULTIPLIERS "super_ativo" = some 1.9 ∧
    (Goals.goalLocals 2025 "masculino" 1995 70 175 1.2 70 10 "equilibrado").tmb = 1648.75 ∧
    (Goals.goalLocals 2025 "masculino" 1995 70 175 1.2 70 10 "equilibrado").tdee = 1978.5) := by
  have hok : (Goals.POST 2025 Goals.exInputC1).isOk = true := by
    norm_num [Goals.POST, Goals.ACTIVITY_MULTIPLIERS, Goals.exInputC1, falsyN, falsyS,
      Goals.GoalResponse.isOk]
    simp
  exact ⟨hok, goals_bmr_mifflin_tdee 2025 Goals.exInputC1 hok⟩

open Goals in
/-- C2: for every valid goal-calculator input the returned
`daily_calories` is `Math.round(TDEE + adjustment)` clamped to the floor
(1500 male, 1200 otherwise) and the ceiling 5000, hence always within
those bounds, and each applied clamp puts the warning naming its bound
into the warnings list. -/
theorem goals_daily_calories_clamped (currentYear : ℤ) (inp : Goals.GoalInput)
    (h : (Goals.POST currentYear inp).isOk = true) :
    ∃ m, Goals.ACTIVITY_MULTIPLIERS (inp.activity_level.getD "") = some m ∧
      (let tmb : ℚ := if inp.gender.getD "" = "masculino"
          then (10 * inp.weight_kg.getD 0) + (6.25 * inp.height_cm.getD 0) -
            (5 * ((currentYear : ℚ) - inp.birth_year.getD 0)) + 5
          else (10 * inp.weight_kg.getD 0) + (6.25 * inp.height_cm.getD 0) -
            (5 * ((currentYear : ℚ) - inp.birth_year.getD 0)) - 161
      let dc0 : ℤ := jsRound (tmb * m +
        (((inp.goal_weight_kg.getD 0 - inp.weight_kg.getD 0) / inp.goal_weeks.getD 0) * 7700) / 7)
      let minc : ℤ := if inp.gender.getD "" = "masculino" then 1500 else 1200
      (Goals.theCalc (Goals.POST currentYear inp)).daily_calories = max minc (min 5000 dc0) ∧
      minc ≤ (Goals.theCalc (Goals.POST currentYear inp)).daily_calories ∧
      (Goals.theCalc (Goals.POST currentYear inp)).daily_calories ≤ 5000 ∧
      (dc0 < minc →
        Goals.minCalorieWarning minc ∈ (Goals.theCalc (Goals.POST currentYear inp)).warnings) ∧
      (5000 < dc0 →
        Goals.maxCalorieWarning 5000 ∈ (Goals.theCalc (Goals.POST currentYear inp)).warnings)) := by
  obtain ⟨m, h1, h2, h3, hm⟩ := Goals.of_isOk h
  rw [Goals.POST_eq_ok currentYear inp m h1 h2 h3 hm]
  refine ⟨m, hm, ?_⟩
  simp only [Goals.theCalc, Goals.mkCalculations, Goals.goalLocals]
  have hmc : (if inp.gender.getD "" = "masculino" then (1500 : ℤ) else 1200) ≤ 5000 := by
    split_ifs <;> norm_num
  refine ⟨?_, ?_, ?_, ?_, ?_⟩
  · split_ifs <;> omega
  · split_ifs <;> omega
  · split_ifs <;> omega
  · intro hlt
    rw [if_pos hlt, if_neg (Goals.minCalorieWarning_ne_empty _)]
    simp [List.mem_append]
  · intro hgt
    have hnlt : ¬ (jsRound ((if inp.gender.getD "" = "masculino"
        then (10 * inp.weight_kg.getD 0) + (6.25 * inp.height_cm.getD 0) -
          (5 * ((currentYear : ℚ) - inp.birth_year.getD 0)) + 5
        else (10 * inp.weight_kg.getD 0) + (6.25 * inp.height_cm.getD 0) -
          (5 * ((currentYear : ℚ) - inp.birth_year.getD 0)) - 161) * m +
        (((inp.goal_weight_kg.getD 0 - inp.weight_kg.getD 0) / inp.goal_weeks.getD 0) * 7700) / 7) <
        (if inp.gender.getD "" = "masculino" then (1500 : ℤ) else 1200)) := by
      omega
    rw [if_neg hnlt, if_pos hgt, if_neg (Goals.maxCalorieWarning_ne_empty _)]
    simp [List.mem_append]

/-- C2 witness: the clamping theorem applied to a concrete input (a
female profile losing 2 kg/week, whose raw target falls below the 1200
kcal floor), the success hypothesis discharged by evaluation. -/
theorem goals_daily_calories_clamped_wit :
    (Goals.POST 2025 Goals.exInputC2).isOk = true ∧
    (∃ m, Goals.ACTIVITY_MULTIPLIERS (Goals.exInputC2.activity_level.getD "") = some m ∧
      (let tmb : ℚ := if Goals.exInputC2.gender.getD "" = "masculino"
          then (10 * Goals.exInputC2.weight_kg.getD 0) + (6.25 * Goals.exInputC2.height_cm.getD 0) -
            (5 * ((2025 : ℚ) - Goals.exInputC2.birth_year.getD 0)) + 5
          else (10 * Goals.exInputC2.weight_kg.getD 0) + (6.25 * Goals.exInputC2.height_cm.getD 0) -
            (5 * ((2025 : ℚ) - Goals.exInputC2.birth_year.getD 0)) - 161
      let dc0 : ℤ := jsRound (tmb * m +
        (((Goals.exInputC2.goal_weight_kg.getD 0 - Goals.exInputC2.weight_kg.getD 0) /
          Goals.exInputC2.goal_weeks.getD 0) * 7700) / 7)
      let minc : ℤ := if Goals.exInputC2.gender.getD "" = "masculino" then 1500 else 1200
      (Goals.theCalc (Goals.POST 2025 Goals.exInputC2)).daily_calories = max minc (min 5000 dc0) ∧
      minc ≤ (Goals.theCalc (Goals.POST 2025 Goals.exInputC2)).daily_calories ∧
      (Goals.theCalc (Goals.POST 2025 Goals.exInputC2)).daily_calories ≤ 5000 ∧
      (dc0 < minc →
        Goals.minCalorieWarning minc ∈ (Goals.theCalc (Goals.POST 2025 Goals.exInputC2)).warnings) ∧
      (5000 < dc0 →
        Goals.maxCalorieWarning 5000 ∈ (Goals.theCalc (Goals.POST 2025 Goals.exInputC2)).warnings))) := by
  have hok : (Goals.POST 2025 Goals.exInputC2).isOk = true := by
    norm_num [Goals.POST, Goals.ACTIVITY_MULTIPLIERS, Goals.exInputC2, falsyN, falsyS,
      Goals.GoalResponse.isOk]
    simp
  exact ⟨hok, goals_daily_calories_clamped 2025 Goals.exInputC2 hok⟩

open Goals in
/-- C3: for every valid goal-calculator input the macro percentages come
from the preset named by `macro_focus` (any unrecognized focus falling
back to the balanced preset), grams are the allocated calories divided
by 4 for protein and carbs and by 9 for fat; the preset table is
equilibrado 30/50/20, perda_gordura 35/40/25, ganho_massa 35/45/20,
baixo_carb 30/30/40, cetogenico 25/5/70; and on a ketogenic input with
2000 daily kcal the response carries protein 500 kcal = 125 g, carbs
100 kcal = 25 g and fat 1400 kcal = 155.6 g. -/
theorem goals_macro_presets (currentYear : ℤ) (inp : Goals.GoalInput)
    (h : (Goals.POST currentYear inp).isOk = true) :
    (let pr := (Goals.MACRO_PRESETS (inp.macro_focus.getD "")).getD Goals.equilibrado
    let dc := (Goals.theCalc (Goals.POST currentYear inp)).daily_calories
    (Goals.theCalc (Goals.POST currentYear inp)).protein.percent = pr.protein ∧
    (Goals.theCalc (Goals.POST currentYear inp)).carbs.percent = pr.carbs ∧
    (Goals.theCalc (Goals.POST currentYear inp)).fat.percent = pr.fat ∧
    (Goals.theCalc (Goals.POST currentYear inp)).protein.grams =
      round1 (((dc : ℚ) * (pr.protein / 100)) / 4) ∧
    (Goals.theCalc (Goals.POST currentYear inp)).carbs.grams =
      round1 (((dc : ℚ) * (pr.carbs / 100)) / 4) ∧
    (Goals.theCalc (Goals.POST currentYear inp)).fat.grams =
      round1 (((dc : ℚ) * (pr.fat / 100)) / 9) ∧
    (Goals.theCalc (Goals.POST currentYear inp)).protein.calories =
      jsRound ((dc : ℚ) * (pr.protein / 100)) ∧
    (Goals.theCalc (Goals.POST currentYear inp)).carbs.calories =
      jsRound ((dc : ℚ) * (pr.carbs / 100)) ∧
    (Goals.theCalc (Goals.POST currentYear inp)).fat.calories =
      jsRound ((dc : ℚ) * (pr.fat / 100))) ∧
    Goals.MACRO_PRESETS "equilibrado" = some ⟨30, 50, 20⟩ ∧
    Goals.MACRO_PRESETS "perda_gordura" = some ⟨35, 40, 25⟩ ∧
    Goals.MACRO_PRESETS "ganho_massa" = some ⟨35, 45, 20⟩ ∧
    Goals.MACRO_PRESETS "baixo_carb" = some ⟨30, 30, 40⟩ ∧
    Goals.MACRO_PRESETS "cetogenico" = some ⟨25, 5, 70⟩ ∧
    Goals.MACRO_PRESETS "personalizado" = none ∧
    (Goals.theCalc (Goals.POST 2025 Goals.exInputC3)).daily_calories = 2000 ∧
    (Goals.theCalc (Goals.POST 2025 Goals.exInputC3)).protein.calories = 500 ∧
    (Goals.theCalc (Goals.POST 2025 Goals.exInputC3)).protein.grams = 125 ∧
    (Goals.theCalc (Goals.POST 2025 Goals.exInputC3)).carbs.calories = 100 ∧
    (Goals.theCalc (Goals.POST 2025 Goals.exInputC3)).carbs.grams = 25 ∧
    (Goals.theCalc (Goals.POST 2025 Goals.exInputC3)).fat.calories = 1400 ∧
    (Goals.theCalc (Goals.POST 2025 Goals.exInputC3)).fat.grams = 155.6 := by
  obtain ⟨m, h1, h2, h3, hm⟩ := Goals.of_isOk h
  rw [Goals.POST_eq_ok currentYear inp m h1 h2 h3 hm]
  have hex : Goals.POST 2025 Goals.exInputC3 =
      .ok (Goals.mkCalculations (Goals.goalLocals 2025 "masculino" 1995 70 177.8 1.2 70 10
        "cetogenico")) := by
    norm_num [Goals.POST, Goals.ACTIVITY_MULTIPLIERS, Goals.exInputC3, falsyN, falsyS]
    simp
  rw [hex]
  refine ⟨⟨rfl, rfl, rfl, rfl, rfl, rfl, rfl, rfl, rfl⟩, rfl, rfl, rfl, rfl, rfl, rfl,
    ?_, ?_, ?_, ?_, ?_, ?_, ?_⟩ <;>
    norm_num [Goals.theCalc, Goals.mkCalculations, Goals.goalLocals, Goals.MACRO_PRESETS,
      Goals.equilibrado, round1, jsRound]

/-- C3 witness: the macro-preset theorem applied to the concrete
ketogenic input, its success hypothesis discharged by evaluation. -/
theorem goals_macro_presets_wit :
    (Goals.POST 2025 Goals.exInputC3).isOk = true ∧
    ((let pr := (Goals.MACRO_PRESETS (Goals.exInputC3.macro_focus.getD "")).getD Goals.equilibrado
    let dc := (Goals.theCalc (Goals.POST 2025 Goals.exInputC3)).daily_calories
    (Goals.theCalc (Goals.POST 2025 Goals.exInputC3)).protein.percent = pr.protein ∧
    (Goals.theCalc (Goals.POST 2025 Goals.exInputC3)).carbs.percent = pr.carbs ∧
    (Goals.theCalc (Goals.POST 2025 Goals.exInputC3)).fat.percent = pr.fat ∧
    (Goals.theCalc (Goals.POST 2025 Goals.exInputC3)).protein.grams =
      round1 (((dc : ℚ) * (pr.protein / 100)) / 4) ∧
    (Goals.theCalc (Goals.POST 2025 Goals.exInputC3)).carbs.grams =
      round1 (((dc : ℚ) * (pr.carbs / 100)) / 4) ∧
    (Goals.theCalc (Goals.POST 2025 Goals.exInputC3)).fat.grams =
      round1 (((dc : ℚ) * (pr.fat / 100)) / 9) ∧
    (Goals.theCalc (Goals.POST 2025 Goals.exInputC3)).protein.calories =
      jsRound ((dc : ℚ) * (pr.protein / 100)) ∧
    (Goals.theCalc (Goals.POST 2025 Goals.exInputC3)).carbs.calories =
      jsRound ((dc : ℚ) * (pr.carbs / 100)) ∧
    (Goals.theCalc (Goals.POST 2025 Goals.exInputC3)).fat.calories =
      jsRound ((dc : ℚ) * (pr.fat / 100))) ∧
    Goals.MACRO_PRESETS "equilibrado" = some ⟨30, 50, 20⟩ ∧
    Goals.MACRO_PRESETS "perda_gordura" = some ⟨35, 40, 25⟩ ∧
    Goals.MACRO_PRESETS "ganho_massa" = some ⟨35, 45, 20⟩ ∧
    Goals.MACRO_PRESETS "baixo_carb" = some ⟨30, 30, 40⟩ ∧
    Goals.MACRO_PRESETS "cetogenico" = some ⟨25, 5, 70⟩ ∧
    Goals.MACRO_PRESETS "personalizado" = none ∧
    (Goals.theCalc (Goals.POST 2025 Goals.exInputC3)).daily_calories = 2000 ∧
    (Goals.theCalc (Goals.POST 2025 Goals.exInputC3)).protein.calories = 500 ∧
    (Goals.theCalc (Goals.POST 2025 Goals.exInputC3)).protein.grams = 125 ∧
    (Goals.theCalc (Goals.POST 2025 Goals.exInputC3)).carbs.calories = 100 ∧
    (Goals.theCalc (Goals.POST 2025 Goals.exInputC3)).carbs.grams = 25 ∧
    (Goals.theCalc (Goals.POST 2025 Goals.exInputC3)).fat.calories = 1400 ∧
    (Goals.theCalc (Goals.POST 2025 Goals.exInputC3)).fat.grams = 155.6) := by
  have hok : (Goals.POST 2025 Goals.exInputC3).isOk = true := by
    norm_num [Goals.POST, Goals.ACTIVITY_MULTIPLIERS, Goals.exInputC3, falsyN, falsyS,
      Goals.GoalResponse.isOk]
    simp
  exact ⟨hok, goals_macro_presets 2025 Goals.exInputC3 hok⟩

open Goals in
/-- C9: the `goal_type` of the returned calculations is derived solely
from the sign of `goal_weight_kg - weight_kg`; the caller-supplied
`goal_type` field has no influence on the response at all. -/
theorem goals_goal_type_sign (currentYear : ℤ) (inp : Goals.GoalInput) (gt : Option String)
    (h : (Goals.POST currentYear inp).isOk = true) :
    (Goals.theCalc (Goals.POST currentYear inp)).goal_type =
      (if inp.goal_weight_kg.getD 0 - inp.weight_kg.getD 0 > 0 then "ganhar"
        else if inp.goal_weight_kg.getD 0 - inp.weight_kg.getD 0 < 0 then "perder"
        else "manter") ∧
    Goals.POST currentYear { inp with goal_type := gt } = Goals.POST currentYear inp := by
  obtain ⟨m, h1, h2, h3, hm⟩ := Goals.of_isOk h
  constructor
  · rw [Goals.POST_eq_ok currentYear inp m h1 h2 h3 hm]
    simp only [Goals.theCalc, Goals.mkCalculations, Goals.goalLocals]
  · rfl

/-- C9 witness: the goal-type theorem applied to the concrete example
input with a contrary caller-supplied goal type. -/
theorem goals_goal_type_sign_wit :
    (Goals.POST 2025 Goals.exInputC1).isOk = true ∧
    ((Goals.theCalc (Goals.POST 2025 Goals.exInputC1)).goal_type =
      (if Goals.exInputC1.goal_weight_kg.getD 0 - Goals.exInputC1.weight_kg.getD 0 > 0 then "ganhar"
        else if Goals.exInputC1.goal_weight_kg.getD 0 - Goals.exInputC1.weight_kg.getD 0 < 0 then "perder"
        else "manter") ∧
    Goals.POST 2025 { Goals.exInputC1 with goal_type := some "ganhar" } =
      Goals.POST 2025 Goals.exInputC1) := by
  have hok : (Goals.POST 2025 Goals.exInputC1).isOk = true := by
    norm_num [Goals.POST, Goals.ACTIVITY_MULTIPLIERS, Goals.exInputC1, falsyN, falsyS,
      Goals.GoalResponse.isOk]
    simp
  exact ⟨hok, goals_goal_type_sign 2025 Goals.exInputC1 (some "ganhar") hok⟩

open Goals in
/-- C10: a goal-calculation request whose `goal_weeks` is absent or zero
is rejected with a 400 before the `kg_per_week` division is reached, and
on every successful response the divisor was nonzero. -/
theorem goals_no_div_by_zero (currentYear : ℤ) (inp : Goals.GoalInput) :
    (falsyN inp.goal_weeks → (Goals.POST currentYear inp).status = 400) ∧
    ((Goals.POST currentYear inp).isOk = true → inp.goal_weeks.getD 0 ≠ 0) := by
  constructor
  · intro hz
    unfold Goals.POST
    by_cases h1 : falsyS inp.gender ∨ falsyN inp.birth_year ∨ falsyN inp.weight_kg ∨
        falsyN inp.height_cm ∨ falsyS inp.activity_level
    · rw [if_pos h1]; rfl
    · rw [if_neg h1, if_pos (Or.inr hz)]; rfl
  · intro h hz
    obtain ⟨m, h1, h2, h3, hm⟩ := Goals.of_isOk h
    exact h2 (Or.inr hz)

open Goals in
/-- C8 (amended): for every valid goal-calculator input the warnings
list contains the too-fast warning exactly when `|kg_per_week| > 1`, the
too-slow warning exactly when `|kg_per_week| < 0.25`, the low-BMI
warning exactly when the goal BMI is below 18.5, and the high-BMI
warning exactly when the goal BMI is strictly above 30 — so a goal BMI
of exactly 30 triggers no warning (the code tests `bmi_goal > 30`, not
`≥ 30`). -/
theorem goals_warning_conditions (currentYear : ℤ) (inp : Goals.GoalInput)
    (h : (Goals.POST currentYear inp).isOk = true) :
    (let kpw : ℚ :=
      |(inp.goal_weight_kg.getD 0 - inp.weight_kg.getD 0) / inp.goal_weeks.getD 0|
    let bg : ℚ := inp.goal_weight_kg.getD 0 /
      ((inp.height_cm.getD 0 / 100) * (inp.height_cm.getD 0 / 100))
    let W := (Goals.theCalc (Goals.POST currentYear inp)).warnings
    (Goals.tooFastWarning kpw ∈ W ↔ kpw > 1) ∧
    (Goals.tooSlowWarning kpw ∈ W ↔ kpw < 0.25) ∧
    (Goals.bmiGoalLowWarning ∈ W ↔ bg < 18.5) ∧
    (Goals.bmiGoalHighWarning ∈ W ↔ bg > 30)) := by
  obtain ⟨m, h1, h2, h3, hm⟩ := Goals.of_isOk h
  rw [Goals.POST_eq_ok currentYear inp m h1 h2 h3 hm]
  obtain ⟨cw, hcw, hw⟩ := Goals.goalLocals_warnings_eq currentYear (inp.gender.getD "")
    (inp.birth_year.getD 0) (inp.weight_kg.getD 0) (inp.height_cm.getD 0) m
    (inp.goal_weight_kg.getD 0) (inp.goal_weeks.getD 0) (inp.macro_focus.getD "")
  have hcalc : (Goals.theCalc (Goals.GoalResponse.ok (Goals.mkCalculations
      (Goals.goalLocals currentYear (inp.gender.getD "") (inp.birth_year.getD 0)
        (inp.weight_kg.getD 0) (inp.height_cm.getD 0) m (inp.goal_weight_kg.getD 0)
        (inp.goal_weeks.getD 0) (inp.macro_focus.getD ""))))).warnings =
      Goals.warningsShape
        |(inp.goal_weight_kg.getD 0 - inp.weight_kg.getD 0) / inp.goal_weeks.getD 0|
        (inp.goal_weight_kg.getD 0 /
          ((inp.height_cm.getD 0 / 100) * (inp.height_cm.getD 0 / 100))) cw := hw
  refine ⟨?_, ?_, ?_, ?_⟩ <;> rw [hcalc]
  · exact Goals.tooFast_mem_iff _ _ cw hcw
  · exact Goals.tooSlow_mem_iff _ _ cw hcw
  · exact Goals.bmiLow_mem_iff _ _ cw hcw
  · exact Goals.bmiHigh_mem_iff _ _ cw hcw

/-- C8 counterexample: on a valid input whose goal BMI is exactly 30 —
outside `[18.5, 30)`, so the claim as stated demands a goal-BMI warning —
the handler's warnings list is empty (the source warns only for
`bmi_goal > 30`). -/
theorem goals_bmi30_cex :
    (Goals.POST 2025 Goals.exInputC8).isOk = true ∧
    (Goals.theCalc (Goals.POST 2025 Goals.exInputC8)).bmi_goal = 30 ∧
    ¬ (18.5 ≤ (30 : ℚ) ∧ (30 : ℚ) < 30) ∧
    (Goals.theCalc (Goals.POST 2025 Goals.exInputC8)).warnings = [] := by
  have hex : Goals.POST 2025 Goals.exInputC8 =
      .ok (Goals.mkCalculations (Goals.goalLocals 2025 "masculino" 1995 100 200 1.2 120 40
        "equilibrado")) := by
    norm_num [Goals.POST, Goals.ACTIVITY_MULTIPLIERS, Goals.exInputC8, falsyN, falsyS]
    simp
  rw [hex]
  refine ⟨rfl, ?_, by norm_num, ?_⟩
  · norm_num [Goals.theCalc, Goals.mkCalculations, Goals.goalLocals, round1, jsRound]
  · norm_num [Goals.theCalc, Goals.mkCalculations, Goals.goalLocals, jsRound, abs,
      Goals.minCalorieWarning_ne_empty, Goals.maxCalorieWarning_ne_empty]

/-- C8 witness: the warning-conditions theorem applied to the concrete
example input, its success hypothesis discharged by evaluation. -/
theorem goals_warning_conditions_wit :
    (Goals.POST 2025 Goals.exInputC1).isOk = true ∧
    (let kpw : ℚ :=
      |(Goals.exInputC1.goal_weight_kg.getD 0 - Goals.exInputC1.weight_kg.getD 0) /
        Goals.exInputC1.goal_weeks.getD 0|
    let bg : ℚ := Goals.exInputC1.goal_weight_kg.getD 0 /
      ((Goals.exInputC1.height_cm.getD 0 / 100) * (Goals.exInputC1.height_cm.getD 0 / 100))
    let W := (Goals.theCalc (Goals.POST 2025 Goals.exInputC1)).warnings
    (Goals.tooFastWarning kpw ∈ W ↔ kpw > 1) ∧
    (Goals.tooSlowWarning kpw ∈ W ↔ kpw < 0.25) ∧
    (Goals.bmiGoalLowWarning ∈ W ↔ bg < 18.5) ∧
    (Goals.bmiGoalHighWarning ∈ W ↔ bg > 30)) := by
  have hok : (Goals.POST 2025 Goals.exInputC1).isOk = true := by
    norm_num [Goals.POST, Goals.ACTIVITY_MULTIPLIERS, Goals.exInputC1, falsyN, falsyS,
      Goals.GoalResponse.isOk]
    simp
  exact ⟨hok, goals_warning_conditions 2025 Goals.exInputC1 hok⟩

namespace Profile

/-- Every profile POST either rejects with a 400 and returns the store
unchanged, or passes every validation (in particular the macro-sum one)
and writes exactly the profile built from the body over the body's
`user_id`. -/
lemma POST_shape (currentYear : ℤ) (store : Store) (body : ProfileBody) :
    (∃ e, POST currentYear store body = (.badRequest e, store)) ∨
    (¬ falsyS body.user_id ∧ macroSumIs100 body ∧
      ∃ code msg, POST currentYear store body =
        (.saved code (mkProfile body) msg, store.set (body.user_id.getD "") (mkProfile body))) := by
  unfold POST
  by_cases h1 : falsyS body.user_id
  · rw [if_pos h1]; exact Or.inl ⟨_, rfl⟩
  rw [if_neg h1]
  by_cases h2 : falsyS body.gender ∨ falsyN body.birth_year ∨ falsyN body.weight_kg ∨
      falsyN body.height_cm
  · rw [if_pos h2]; exact Or.inl ⟨_, rfl⟩
  rw [if_neg h2]
  by_cases h3 : body.birth_year.getD 0 < 1920 ∨ (currentYear : ℚ) < body.birth_year.getD 0
  · rw [if_pos h3]; exact Or.inl ⟨_, rfl⟩
  rw [if_neg h3]
  by_cases h4 : (currentYear : ℚ) - body.birth_year.getD 0 < 13
  · rw [if_pos h4]; exact Or.inl ⟨_, rfl⟩
  rw [if_neg h4]
  by_cases h5 : body.weight_kg.getD 0 < 30 ∨ (200 : ℚ) < body.weight_kg.getD 0
  · rw [if_pos h5]; exact Or.inl ⟨_, rfl⟩
  rw [if_neg h5]
  by_cases h6 : body.height_cm.getD 0 < 100 ∨ (250 : ℚ) < body.height_cm.getD 0
  · rw [if_pos h6]; exact Or.inl ⟨_, rfl⟩
  rw [if_neg h6]
  by_cases h7 : ¬ macroSumIs100 body
  · rw [if_pos h7]; exact Or.inl ⟨_, rfl⟩
  rw [if_neg h7]
  exact Or.inr ⟨h1, not_not.mp h7, _, _, rfl⟩

end Profile

open Profile in
/-- C4: a successful profile write stores exactly the profile built from
the body — a full replacement, independent of whatever was stored before
— it echoes that profile, and a read with the same `user_id` returns
it. -/
theorem profile_write_read_roundtrip (currentYear : ℤ) (store : Profile.Store)
    (body : Profile.ProfileBody)
    (h : (Profile.POST currentYear store body).1.isSaved = true) :
    (Profile.POST currentYear store body).1.savedProfile = some (Profile.mkProfile body) ∧
    (Profile.POST currentYear store body).2 (body.user_id.getD "") =
      some (Profile.mkProfile body) ∧
    Profile.GET (Profile.POST currentYear store body).2 (some (body.user_id.getD "")) none =
      .found (Profile.mkProfile body) := by
  rcases Profile.POST_shape currentYear store body with ⟨e, he⟩ | ⟨h1, _, code, msg, he⟩
  · rw [he] at h
    simp [Profile.PostResp.isSaved] at h
  · rw [he]
    have h1' : ¬ (body.user_id.getD "" = "") := h1
    refine ⟨rfl, ?_, ?_⟩
    · simp [Profile.Store.set]
    · simp [Profile.GET, Profile.Store.set, falsyS, h1']

/-- C4 witness: the round-trip theorem applied to a concrete write over
a store that already holds a different profile under the same key. -/
theorem profile_write_read_roundtrip_wit :
    (Profile.POST 2025 Profile.store1 Profile.bodyC4).1.isSaved = true ∧
    ((Profile.POST 2025 Profile.store1 Profile.bodyC4).1.savedProfile =
      some (Profile.mkProfile Profile.bodyC4) ∧
    (Profile.POST 2025 Profile.store1 Profile.bodyC4).2 (Profile.bodyC4.user_id.getD "") =
      some (Profile.mkProfile Profile.bodyC4) ∧
    Profile.GET (Profile.POST 2025 Profile.store1 Profile.bodyC4).2
      (some (Profile.bodyC4.user_id.getD "")) none =
      .found (Profile.mkProfile Profile.bodyC4)) := by
  have hok : (Profile.POST 2025 Profile.store1 Profile.bodyC4).1.isSaved = true := by
    norm_num [Profile.POST, Profile.bodyC4, Profile.macroSumIs100, falsyN, falsyS,
      Profile.PostResp.isSaved]
    simp [Profile.store1]
  exact ⟨hok, profile_write_read_roundtrip 2025 Profile.store1 Profile.bodyC4 hok⟩

open Profile in
/-- C5: a profile write whose macro percentages are absent or do not sum
to exactly 100 is rejected with a 400 and leaves the store unchanged;
and the all-stored-profiles-sum-to-100 invariant is preserved by every
write (reads do not touch the store). -/
theorem profile_macro_sum_invariant (currentYear : ℤ) (store : Profile.Store)
    (body : Profile.ProfileBody) :
    (¬ Profile.macroSumIs100 body →
      (Profile.POST currentYear store body).1.status = 400 ∧
      (Profile.POST currentYear store body).2 = store) ∧
    (Profile.storeInv store → Profile.storeInv (Profile.POST currentYear store body).2) := by
  rcases Profile.POST_shape currentYear store body with ⟨e, he⟩ | ⟨h1, hsum, code, msg, he⟩
  · rw [he]
    exact ⟨fun _ => ⟨rfl, rfl⟩, fun hinv => hinv⟩
  · rw [he]
    constructor
    · intro hns
      exact absurd hsum hns
    · intro hinv uid p hp
      by_cases hk : uid = body.user_id.getD ""
      · simp only [Profile.Store.set] at hp
        rw [if_pos hk] at hp
        cases hp
        simpa [Profile.mkProfile] using hsum.2.2.2
      · simp only [Profile.Store.set] at hp
        rw [if_neg hk] at hp
        exact hinv uid p hp

open Vision in
/-- C6 (amended): in the fixed vision handler — the variant with the
empty-response guard — a present image and model content that is null,
empty, whitespace-only, or the literal empty-object string yields a 500
whose body carries the model name, finish reason and token usage, never
a 200; the alternative handler instead parses falsy content as the
empty-object string and returns the empty object as a 200 success. -/
theorem vision_empty_response (image : String) (response : Vision.ChatResponse)
    (himg : image ≠ "")
    (h : response.content.getD "" = "" ∨ jsTrim (response.content.getD "") = "" ∨
      response.content.getD "" = "\x7b\x7d") :
    Vision.POSTfixed (some image) (.ok response) =
      ⟨500, .debugError "A análise não pôde ser concluída"
        "OpenAI retornou resposta vazia. Possíveis causas: créditos esgotados, rate limit atingido ou problema com a API Key."
        response.model response.finish_reason response.total_tokens⟩ ∧
    (Vision.POSTfixed (some image) (.ok response)).status = 500 ∧
    (Vision.POSTfixed (some image) (.ok response)).status ≠ 200 := by
  have hfi : ¬ falsyS (some image) := by simpa [falsyS] using himg
  simp only [Vision.POSTfixed]
  rw [if_neg hfi, if_pos h]
  exact ⟨rfl, rfl, by simp⟩

/-- C6 witness: the empty-response theorem applied to a concrete image
and a response whose content is the literal empty-object string. -/
theorem vision_empty_response_wit :
    ("https://img.example/food.jpg" ≠ "") ∧
    ((Vision.mockResp.content.getD "" = "" ∨ jsTrim (Vision.mockResp.content.getD "") = "" ∨
      Vision.mockResp.content.getD "" = "\x7b\x7d")) ∧
    (Vision.POSTfixed (some "https://img.example/food.jpg") (.ok Vision.mockResp) =
      ⟨500, .debugError "A análise não pôde ser concluída"
        "OpenAI retornou resposta vazia. Possíveis causas: créditos esgotados, rate limit atingido ou problema com a API Key."
        Vision.mockResp.model Vision.mockResp.finish_reason Vision.mockResp.total_tokens⟩ ∧
    (Vision.POSTfixed (some "https://img.example/food.jpg") (.ok Vision.mockResp)).status = 500 ∧
    (Vision.POSTfixed (some "https://img.example/food.jpg") (.ok Vision.mockResp)).status ≠ 200) := by
  have h1 : ("https://img.example/food.jpg" : String) ≠ "" := by decide
  have h2 : Vision.mockResp.content.getD "" = "" ∨
      jsTrim (Vision.mockResp.content.getD "") = "" ∨
      Vision.mockResp.content.getD "" = "\x7b\x7d" := Or.inr (Or.inr rfl)
  exact ⟨h1, h2, vision_empty_response "https://img.example/food.jpg" Vision.mockResp h1 h2⟩

open Vision in
/-- C6 counterexample: the repository's alternative vision handler, on a
present image and model content equal to the literal empty-object
string, returns the empty parsed object with status 200 — the claim
demands a 500 with diagnostics for every vision handler in this
situation. -/
theorem vision_alt_empty_200_cex :
    Vision.POSTalt (some "https://img.example/food.jpg") (.ok Vision.mockResp) =
      ⟨200, .success ⟨none, none⟩⟩ ∧
    (Vision.POSTalt (some "https://img.example/food.jpg") (.ok Vision.mockResp)).status ≠ 500 := by
  constructor <;> decide

open Vision in
/-- C7 (amended): the fixed vision handler classifies a thrown `Error`
by its message text with auth markers checked first: messages with
"401"/"Unauthorized" give the 500 auth error; otherwise messages with
"429"/"Rate limit" give the 429 rate-limit error; otherwise messages
with "quota"/"insufficient_quota" give the 500 quota error; otherwise
the generic 500 carries the message as details.  The three classified
error summaries are pairwise distinct.  The alternative handler maps
every thrown `Error` to the one generic 500, distinguishing nothing. -/
theorem vision_error_classification (image msg : String) (himg : image ≠ "") :
    ((strIncludes msg "401" = true ∨ strIncludes msg "Unauthorized" = true) →
      Vision.POSTfixed (some image) (.thrown msg) =
        ⟨500, .detailedError "Erro de autenticação com OpenAI"
          "API Key inválida ou expirada. Verifique as configurações."⟩) ∧
    (¬ (strIncludes msg "401" = true ∨ strIncludes msg "Unauthorized" = true) →
      (strIncludes msg "429" = true ∨ strIncludes msg "Rate limit" = true) →
      Vision.POSTfixed (some image) (.thrown msg) =
        ⟨429, .detailedError "Limite de requisições atingido"
          "Muitas requisições em pouco tempo. Aguarde alguns instantes e tente novamente."⟩) ∧
    (¬ (strIncludes msg "401" = true ∨ strIncludes msg "Unauthorized" = true) →
      ¬ (strIncludes msg "429" = true ∨ strIncludes msg "Rate limit" = true) →
      (strIncludes msg "quota" = true ∨ strIncludes msg "insufficient_quota" = true) →
      Vision.POSTfixed (some image) (.thrown msg) =
        ⟨500, .detailedError "Créditos esgotados"
          "Sem créditos disponíveis na conta OpenAI. Adicione créditos para continuar."⟩) ∧
    (¬ (strIncludes msg "401" = true ∨ strIncludes msg "Unauthorized" = true) →
      ¬ (strIncludes msg "429" = true ∨ strIncludes msg "Rate limit" = true) →
      ¬ (strIncludes msg "quota" = true ∨ strIncludes msg "insufficient_quota" = true) →
      Vision.POSTfixed (some image) (.thrown msg) =
        ⟨500, .detailedError "Ocorreu um erro ao analisar a imagem." msg⟩) ∧
    (("Erro de autenticação com OpenAI" : String) ≠ "Limite de requisições atingido" ∧
      ("Erro de autenticação com OpenAI" : String) ≠ "Créditos esgotados" ∧
      ("Limite de requisições atingido" : String) ≠ "Créditos esgotados") ∧
    Vision.POSTalt (some image) (.thrown msg) =
      ⟨500, .detailedError "Ocorreu um erro ao analisar a imagem." msg⟩ := by
  have hfi : ¬ falsyS (some image) := by simpa [falsyS] using himg
  refine ⟨?_, ?_, ?_, ?_, ⟨by decide, by decide, by decide⟩, ?_⟩
  · intro hauth
    simp only [Vision.POSTfixed]
    rw [if_neg hfi, if_pos hauth]
  · intro hnauth hrate
    simp only [Vision.POSTfixed]
    rw [if_neg hfi, if_neg hnauth, if_pos hrate]
  · intro hnauth hnrate hquota
    simp only [Vision.POSTfixed]
    rw [if_neg hfi, if_neg hnauth, if_neg hnrate, if_pos hquota]
  · intro hnauth hnrate hnquota
    simp only [Vision.POSTfixed]
    rw [if_neg hfi, if_neg hnauth, if_neg hnrate, if_neg hnquota]
  · simp only [Vision.POSTalt]
    rw [if_neg hfi]

/-- C7 witness: the classification theorem applied to a concrete image;
its quota branch is then exercised at a concrete quota message. -/
theorem vision_error_classification_wit :
    ("https://img.example/food.jpg" ≠ "") ∧
    (((strIncludes "Error: insufficient_quota" "401" = true ∨
        strIncludes "Error: insufficient_quota" "Unauthorized" = true) →
      Vision.POSTfixed (some "https://img.example/food.jpg")
          (.thrown "Error: insufficient_quota") =
        ⟨500, .detailedError "Erro de autenticação com OpenAI"
          "API Key inválida ou expirada. Verifique as configurações."⟩) ∧
    (¬ (strIncludes "Error: insufficient_quota" "401" = true ∨
        strIncludes "Error: insufficient_quota" "Unauthorized" = true) →
      (strIncludes "Error: insufficient_quota" "429" = true ∨
        strIncludes "Error: insufficient_quota" "Rate limit" = true) →
      Vision.POSTfixed (some "https://img.example/food.jpg")
          (.thrown "Error: insufficient_quota") =
        ⟨429, .detailedError "Limite de requisições atingido"
          "Muitas requisições em pouco tempo. Aguarde alguns instantes e tente novamente."⟩) ∧
    (¬ (strIncludes "Error: insufficient_quota" "401" = true ∨
        strIncludes "Error: insufficient_quota" "Unauthorized" = true) →
      ¬ (strIncludes "Error: insufficient_quota" "429" = true ∨
        strIncludes "Error: insufficient_quota" "Rate limit" = true) →
      (strIncludes "Error: insufficient_quota" "quota" = true ∨
        strIncludes "Error: insufficient_quota" "insufficient_quota" = true) →
      Vision.POSTfixed (some "https://img.example/food.jpg")
          (.thrown "Error: insufficient_quota") =
        ⟨500, .detailedError "Créditos esgotados"
          "Sem créditos disponíveis na conta OpenAI. Adicione créditos para continuar."⟩) ∧
    (¬ (strIncludes "Error: insufficient_quota" "401" = true ∨
        strIncludes "Error: insufficient_quota" "Unauthorized" = true) →
      ¬ (strIncludes "Error: insufficient_quota" "429" = true ∨
        strIncludes "Error: insufficient_quota" "Rate limit" = true) →
      ¬ (strIncludes "Error: insufficient_quota" "quota" = true ∨
        strIncludes "Error: insufficient_quota" "insufficient_quota" = true) →
      Vision.POSTfixed (some "https://img.example/food.jpg")
          (.thrown "Error: insufficient_quota") =
        ⟨500, .detailedError "Ocorreu um erro ao analisar a imagem."
          "Error: insufficient_quota"⟩) ∧
    (("Erro de autenticação com OpenAI" : String) ≠ "Limite de requisições atingido" ∧
      ("Erro de autenticação com OpenAI" : String) ≠ "Créditos esgotados" ∧
      ("Limite de requisições atingido" : String) ≠ "Créditos esgotados") ∧
    Vision.POSTalt (some "https://img.example/food.jpg")
        (.thrown "Error: insufficient_quota") =
      ⟨500, .detailedError "Ocorreu um erro ao analisar a imagem."
        "Error: insufficient_quota"⟩) := by
  have h1 : ("https://img.example/food.jpg" : String) ≠ "" := by decide
  exact ⟨h1, vision_error_classification "https://img.example/food.jpg"
    "Error: insufficient_quota" h1⟩

open Vision in
/-- C7 counterexample: a message carrying both the auth and rate-limit
markers is answered with the 500 auth error, not the 429 the claim
assigns to every message containing "429" or "Rate limit". -/
theorem vision_auth_rate_overlap_cex :
    strIncludes Vision.overlapMsg "429" = true ∧
    strIncludes Vision.overlapMsg "Rate limit" = true ∧
    (Vision.POSTfixed (some "https://img.example/food.jpg")
      (.thrown Vision.overlapMsg)).status = 500 ∧
    (Vision.POSTfixed (some "https://img.example/food.jpg")
      (.thrown Vision.overlapMsg)).status ≠ 429 := by
  refine ⟨by decide, by decide, by decide, by decide⟩

end NutriAI
